import Mathlib

/-!
Verification of the pyblu response-parsing layer and player client
(`src/pyblu/parse.py`, `src/pyblu/player.py`, `src/pyblu/entities.py`,
`src/pyblu/errors.py`) against its specification.

The XML layer is modelled after the lxml view of a parsed document:
an element has a tag, an attribute list (document order), optional text
(the text before the first child; `none` for an empty or self-closing
element, matching lxml where `.text is None`), and a child list.
`etree.fromstring` (bytes to tree, with its own well-formedness failures)
is abstracted away: parse functions here take the already-parsed tree and
theorems quantify over trees.

Python exceptions are modelled by `Except PyErr`; the decorator
`_wrap_in_unxpected_response_error` becomes `wrapUnexpected`, which maps
any inner failure to a `PlayerUnexpectedResponseError` carrying both the
rendered message and the underlying cause.

Python `int(...)`/`float(...)` on strings are modelled by `pyInt?` and
`pyFloat?`: whitespace-stripped sign-and-digits (resp. the decimal float
literal grammar). Digit-group underscores and the `inf`/`nan` spellings
accepted by Python are not modelled; no claim depends on them. A parsed
float is kept as its accepted literal (`PyFloat`), since no claim compares
float values across spellings.
-/

inductive Xml where
| elem (tag : String) (attrs : List (String × String)) (text : Option String) (children : List Xml)

def Xml.tag : Xml → String
| .elem t _ _ _ => t

def Xml.attrs : Xml → List (String × String)
| .elem _ a _ _ => a

def Xml.text : Xml → Option String
| .elem _ _ x _ => x

def Xml.children : Xml → List Xml
| .elem _ _ _ c => c

/-- Model of `element.attrib.get(k)`: first binding of attribute `k`, if any. -/
def attribGet (e : Xml) (k : String) : Option String :=
(e.attrs.find? (fun p => p.1 == k)).map (fun p => p.2)

mutual

/-- XPath `//tag` on a tree: all elements with the given tag,
in document order (self included). -/
def xpathAll (tag : String) : Xml → List Xml
| .elem t a x cs => (if t == tag then [Xml.elem t a x cs] else []) ++ xpathAllList tag cs

def xpathAllList (tag : String) : List Xml → List Xml
| [] => []
| c :: cs => xpathAll tag c ++ xpathAllList tag cs

end

/-- XPath `//t1/t2`: direct `t2` children of every `t1` element. -/
def xpathChild (tree : Xml) (t1 t2 : String) : List Xml :=
(xpathAll t1 tree).flatMap (fun e => e.children.filter (fun c => c.tag == t2))

/-- Model of `element.findtext(tag)`: text of the first direct child with the given
tag (the empty string when that child has no text), `none` when no child
matches. -/
def findtext (e : Xml) (tag : String) : Option String :=
match e.children.find? (fun c => c.tag == tag) with
| none => none
| some c => some (c.text.getD "")

/-- Python truthiness of an optional string: `None` and `""` are falsy. -/
def pyTruthy : Option String → Bool
| none => false
| some s => !(s == "")

/-- Python exceptions raised inside the parse functions. -/
inductive PyErr where
| keyError (k : String)
| valueError (msg : String)
| typeError (msg : String)
| assertionError (msg : String)
deriving DecidableEq, Repr

deriving instance DecidableEq for Except

/-- Model of `str(e)` rendering of a Python exception (KeyError renders its key
quoted, the others their message). -/
def PyErr.str : PyErr → String
| .keyError k => "'" ++ k ++ "'"
| .valueError m => m
| .typeError m => m
| .assertionError m => m

/-- Model of `element.attrib[k]`: raises `KeyError` when the attribute is absent. -/
def attribD (e : Xml) (k : String) : Except PyErr String :=
match attribGet e k with
| some v => .ok v
| none => .error (.keyError k)

def isPyWhitespace (c : Char) : Bool :=
c == ' ' || c == '\t' || c == '\n' || c == '\r' || c == '\x0b' || c == '\x0c'

/-- Python `str.strip()` on a character list. -/
def trimChars (l : List Char) : List Char :=
((l.dropWhile isPyWhitespace).reverse.dropWhile isPyWhitespace).reverse

def validUnsignedInt (l : List Char) : Bool :=
!l.isEmpty && l.all Char.isDigit

def stripSign : List Char → List Char
| '+' :: r => r
| '-' :: r => r
| r => r

def pyDigitsVal (l : List Char) : Nat :=
l.foldl (fun a c => a * 10 + (c.toNat - 48)) 0

/-- Python `int(s)` on a string: optional surrounding whitespace, optional
sign, one or more digits; `none` models `ValueError`. -/
def pyInt? (s : String) : Option Int :=
match trimChars s.toList with
| '+' :: r => if validUnsignedInt r then some (pyDigitsVal r) else none
| '-' :: r => if validUnsignedInt r then some (-(pyDigitsVal r : Int)) else none
| r => if validUnsignedInt r then some (pyDigitsVal r) else none

def splitOnChar (sep : Char) : List Char → List (List Char)
| [] => [[]]
| c :: rest =>
  let r := splitOnChar sep rest
  if c == sep then [] :: r
  else match r with
  | [] => [[c]]
  | h :: t => (c :: h) :: t

def validMantissa (l : List Char) : Bool :=
match splitOnChar '.' l with
| [a] => validUnsignedInt a
| [a, b] => a.all Char.isDigit && b.all Char.isDigit && (!a.isEmpty || !b.isEmpty)
| _ => false

/-- Recogniser for the Python decimal float literal grammar:
sign? mantissa ([eE] sign? digits)?, surrounding whitespace allowed. -/
def validPyFloat (s : String) : Bool :=
let t := (stripSign (trimChars s.toList)).map Char.toLower
match splitOnChar 'e' t with
| [m] => validMantissa m
| [m, ex] => validMantissa m && validUnsignedInt (stripSign ex)
| _ => false

/-- A parsed Python float, kept as its accepted (trimmed) literal. -/
structure PyFloat where
lit : String
deriving DecidableEq, Repr

def pyFloat? (s : String) : Option PyFloat :=
if validPyFloat s then some ⟨String.mk (trimChars s.toList)⟩ else none

/-- Python `int(s)` with the `ValueError` it raises on bad input. -/
def pyIntOfStr (s : String) : Except PyErr Int :=
match pyInt? s with
| some n => .ok n
| none => .error (.valueError ("invalid literal for int() with base 10: '" ++ s ++ "'"))

/-- Python `int(x)` where `x` is `findtext`/`attrib.get` output:
`int(None)` raises `TypeError`. -/
def pyIntOfOptStr : Option String → Except PyErr Int
| none => .error (.typeError "int() argument must be a string, a bytes-like object or a real number, not 'NoneType'")
| some s => pyIntOfStr s

/-- Python `float(s)` with the `ValueError` it raises on bad input. -/
def pyFloatOfStr (s : String) : Except PyErr PyFloat :=
match pyFloat? s with
| some f => .ok f
| none => .error (.valueError ("could not convert string to float: '" ++ s ++ "'"))

/-- Python `float(x)` where `x` may be `None`. -/
def pyFloatOfOptStr : Option String → Except PyErr PyFloat
| none => .error (.typeError "float() argument must be a string or a real number, not 'NoneType'")
| some s => pyFloatOfStr s

def hexVal (c : Char) : Option Nat :=
if c.isDigit then some (c.toNat - 48)
else if 'a' ≤ c ∧ c ≤ 'f' then some (c.toNat - 87)
else if 'A' ≤ c ∧ c ≤ 'F' then some (c.toNat - 55)
else none

/-- Model of `urllib.parse.unquote`, percent-escape decoding; each escaped byte is
mapped to the character of its code point (multi-byte UTF-8 recombination
is not modelled; no claim depends on it). -/
def unquoteChars : List Char → List Char
| '%' :: a :: b :: rest =>
  match hexVal a, hexVal b with
  | some x, some y => Char.ofNat (16 * x + y) :: unquoteChars rest
  | _, _ => '%' :: unquoteChars (a :: b :: rest)
| c :: rest => c :: unquoteChars rest
| [] => []

def pyUnquote (s : String) : String :=
String.mk (unquoteChars s.toList)

/-- The error raised by `_wrap_in_unxpected_response_error`: message text
plus the underlying parse failure it was raised `from`. -/
structure PlayerUnexpectedResponseError where
message : String
cause : PyErr
deriving DecidableEq, Repr

/-- Model of `_wrap_in_unxpected_response_error`: any inner exception is re-raised
as `PlayerUnexpectedResponseError` carrying the underlying detail. -/
def wrapUnexpected {α : Type} : Except PyErr α → Except PlayerUnexpectedResponseError α
| .ok v => .ok v
| .error e => .error ⟨"Unexpected response from player: " ++ e.str, e⟩

/-- Left-to-right effectful map, as a Python list comprehension evaluates:
the first exception aborts the whole list. -/
def exceptMap {α β : Type} (f : α → Except PyErr β) : List α → Except PyErr (List β)
| [] => .ok []
| x :: xs => do
  let y ← f x
  let ys ← exceptMap f xs
  pure (y :: ys)

/-! Entities (`src/pyblu/entities.py`). Fields whose Python annotation is
`T | None` are `Option`; fields annotated plainly but fed from `findtext`
or `.text`, which may be `None` at runtime (dataclasses do not check), are
`Option` as well to stay runtime-faithful (`Status.state`, the parsed
state string, `PairedPlayer.ip` from a leader element with no text). -/

structure PairedPlayer where
ip : Option String
port : Int
deriving DecidableEq, Repr

structure Status where
etag : String
input_id : Option String
service : Option String
state : Option String
shuffle : Bool
album : Option String
artist : Option String
name : Option String
image : Option String
volume : Int
volume_db : PyFloat
mute : Bool
mute_volume : Option Int
mute_volume_db : Option PyFloat
seconds : PyFloat
total_seconds : Option PyFloat
can_seek : Bool
sleep : Int
group_name : Option String
group_volume : Option Int
indexing : Bool
stream_url : Option String
deriving DecidableEq, Repr

structure SyncStatus where
etag : String
id : String
mac : String
name : String
image : String
initialized : Bool
group : Option String
master : Option PairedPlayer
slaves : Option (List PairedPlayer)
zone : Option String
zone_master : Bool
zone_slave : Bool
brand : String
model : String
model_name : String
mute_volume_db : Option PyFloat
mute_volume : Option Int
volume_db : PyFloat
volume : Int
deriving DecidableEq, Repr

structure Volume where
volume : Int
db : PyFloat
mute : Bool
deriving DecidableEq, Repr

structure PlayQueue where
id : String
shuffle : Bool
modified : Bool
length : Int
deriving DecidableEq, Repr

structure Preset where
name : String
id : Int
url : String
image : Option String
volume : Option Int
deriving DecidableEq, Repr

structure Input where
id : String
text : String
image : String
url : String
deriving DecidableEq, Repr

/-! Parse functions (`src/pyblu/parse.py`), one `..._tree` function per
source function, operating on the parsed tree; the exported name applies
the `_wrap_in_unxpected_response_error` decorator. Field extractions are
factored into named helpers mirroring the keyword-argument expressions;
evaluation order of fallible steps follows Python's left-to-right keyword
evaluation. -/

/-- Model of `int(e.findtext(tag)) if e.findtext(tag) else None`. -/
def optIntField (e : Xml) (tag : String) : Except PyErr (Option Int) :=
if pyTruthy (findtext e tag) then (pyIntOfOptStr (findtext e tag)).map some else .ok none

/-- Model of `float(e.findtext(tag)) if e.findtext(tag) else None`. -/
def optFloatField (e : Xml) (tag : String) : Except PyErr (Option PyFloat) :=
if pyTruthy (findtext e tag) then (pyFloatOfOptStr (findtext e tag)).map some else .ok none

/-- Model of `int(e.findtext(tag)) if e.findtext(tag) else d`. -/
def intFieldDefault (e : Xml) (tag : String) (d : Int) : Except PyErr Int :=
if pyTruthy (findtext e tag) then pyIntOfOptStr (findtext e tag) else .ok d

/-- Model of `e.findtext(tag) == "1"`. -/
def boolField (e : Xml) (tag : String) : Bool :=
findtext e tag == some "1"

/-- Model of `float(e.attrib[k]) if k in e.attrib else None`. -/
def optFloatAttr (e : Xml) (k : String) : Except PyErr (Option PyFloat) :=
match attribGet e k with
| some s => (pyFloatOfStr s).map some
| none => .ok none

/-- Model of `int(e.attrib[k]) if k in e.attrib else None`. -/
def optIntAttr (e : Xml) (k : String) : Except PyErr (Option Int) :=
match attribGet e k with
| some s => (pyIntOfStr s).map some
| none => .ok none

/-- Model of `float(e.attrib[k])`: mandatory lookup, then coercion. -/
def floatAttr (e : Xml) (k : String) : Except PyErr PyFloat :=
match attribD e k with
| .error er => .error er
| .ok s => pyFloatOfStr s

/-- Model of `int(e.attrib[k])`: mandatory lookup, then coercion. -/
def intAttr (e : Xml) (k : String) : Except PyErr Int :=
match attribD e k with
| .error er => .error er
| .ok s => pyIntOfStr s

/-- Model of `PairedPlayer(ip=x.attrib["id"], port=int(x.attrib["port"]))`. -/
def parsePairedSlave (x : Xml) : Except PyErr PairedPlayer :=
match attribD x "id" with
| .error e => .error e
| .ok ip =>
  match attribD x "port" with
  | .error e => .error e
  | .ok p =>
    match pyIntOfStr p with
    | .error e => .error e
    | .ok port => .ok ⟨some ip, port⟩

/-- Model of `parse_add_slave`: collects `//addSlave/slave`; no anchor-cardinality
assertion, so an absent anchor yields the empty list. -/
def parse_add_slave_tree (tree : Xml) : Except PyErr (List PairedPlayer) :=
exceptMap parsePairedSlave (xpathChild tree "addSlave" "slave")

def parse_add_slave (tree : Xml) : Except PlayerUnexpectedResponseError (List PairedPlayer) :=
wrapUnexpected (parse_add_slave_tree tree)

/-- The `master` block of `parse_sync_status`: first `//SyncStatus/master`
element if any; its text is the ip (possibly `None`), its `port` attribute
is looked up then coerced by `int`. -/
def parseMaster (tree : Xml) : Except PyErr (Option PairedPlayer) :=
match xpathChild tree "SyncStatus" "master" with
| [] => .ok none
| m :: _ =>
  match attribD m "port" with
  | .error e => .error e
  | .ok p =>
    match pyIntOfStr p with
    | .error e => .error e
    | .ok port => .ok (some ⟨m.text, port⟩)

/-- The `slaves` block of `parse_sync_status`: `None` when no
`//SyncStatus/slave` element exists, otherwise the mapped list. -/
def parseSlaves (tree : Xml) : Except PyErr (Option (List PairedPlayer)) :=
match xpathChild tree "SyncStatus" "slave" with
| [] => .ok none
| l => (exceptMap parsePairedSlave l).map some

def parse_sync_status_tree (tree : Xml) : Except PyErr SyncStatus := do
let master ← parseMaster tree
let slaves ← parseSlaves tree
match xpathAll "SyncStatus" tree with
| [e] => do
  let etag ← attribD e "etag"
  let id ← attribD e "id"
  let mac ← attribD e "mac"
  let name ← attribD e "name"
  let image ← attribD e "icon"
  let brand ← attribD e "brand"
  let model ← attribD e "model"
  let model_name ← attribD e "modelName"
  let mute_volume_db ← optFloatAttr e "muteDb"
  let mute_volume ← optIntAttr e "muteVolume"
  let volume_db ← floatAttr e "db"
  let volume ← intAttr e "volume"
  .ok { etag, id, mac, name, image,
        initialized := attribGet e "initialized" == some "true",
        group := attribGet e "group",
        master, slaves,
        zone := attribGet e "zone",
        zone_master := attribGet e "zoneMaster" == some "true",
        zone_slave := attribGet e "zoneMaster" == some "true",
        brand, model, model_name,
        mute_volume_db, mute_volume, volume_db, volume }
| _ => .error (.assertionError "SyncStatus element not found or multiple found")

def parse_sync_status (tree : Xml) : Except PlayerUnexpectedResponseError SyncStatus :=
wrapUnexpected (parse_sync_status_tree tree)

def parse_status_tree (tree : Xml) : Except PyErr Status :=
match xpathAll "status" tree with
| [e] =>
  let name := (findtext e "name").orElse (fun _ => findtext e "title1")
  let artist := (findtext e "artist").orElse (fun _ => findtext e "title2")
  let album := (findtext e "album").orElse (fun _ => findtext e "title3")
  do
  let etag ← attribD e "etag"
  let volume ← pyIntOfOptStr (findtext e "volume")
  let volume_db ← pyFloatOfOptStr (findtext e "db")
  let mute_volume ← optIntField e "muteVolume"
  let mute_volume_db ← optFloatField e "muteDb"
  let seconds ← pyFloatOfOptStr (findtext e "secs")
  let total_seconds ← optFloatField e "totlen"
  let sleep ← intFieldDefault e "sleep" 0
  let group_volume ← optIntField e "groupVolume"
  .ok { etag,
        input_id := findtext e "inputId",
        service := findtext e "service",
        state := findtext e "state",
        shuffle := boolField e "shuffle",
        album, artist, name,
        image := findtext e "image",
        volume, volume_db,
        mute := boolField e "mute",
        mute_volume, mute_volume_db, seconds, total_seconds,
        can_seek := boolField e "canSeek",
        sleep,
        group_name := findtext e "groupName",
        group_volume,
        indexing := boolField e "indexing",
        stream_url := findtext e "streamUrl" }
| _ => .error (.assertionError "Status element not found or multiple found")

def parse_status (tree : Xml) : Except PlayerUnexpectedResponseError Status :=
wrapUnexpected (parse_status_tree tree)

def parse_volume_tree (tree : Xml) : Except PyErr Volume :=
match xpathAll "volume" tree with
| [e] => do
  let volume ← pyIntOfOptStr e.text
  let db ← floatAttr e "db"
  .ok { volume, db, mute := attribGet e "mute" == some "1" }
| _ => .error (.assertionError "Volume element not found or multiple found")

def parse_volume (tree : Xml) : Except PlayerUnexpectedResponseError Volume :=
wrapUnexpected (parse_volume_tree tree)

def parse_play_queue_tree (tree : Xml) : Except PyErr PlayQueue :=
match xpathAll "playlist" tree with
| [e] => do
  let id ← attribD e "id"
  let length ← intAttr e "length"
  .ok { id,
        modified := attribGet e "modified" == some "1",
        length,
        shuffle := attribGet e "shuffle" == some "1" }
| _ => .error (.assertionError "Playlist element not found or multiple found")

def parse_play_queue (tree : Xml) : Except PlayerUnexpectedResponseError PlayQueue :=
wrapUnexpected (parse_play_queue_tree tree)

/-- Model of `Preset(name=..., id=int(...), url=..., image=get, volume=opt int)`. -/
def parsePreset (x : Xml) : Except PyErr Preset :=
match attribD x "name" with
| .error e => .error e
| .ok name =>
  match attribD x "id" with
  | .error e => .error e
  | .ok ids =>
    match pyIntOfStr ids with
    | .error e => .error e
    | .ok id =>
      match attribD x "url" with
      | .error e => .error e
      | .ok url =>
        match (if pyTruthy (attribGet x "volume") then (pyIntOfOptStr (attribGet x "volume")).map some else .ok none) with
        | .error e => .error e
        | .ok volume => .ok ⟨name, id, url, attribGet x "image", volume⟩

def parse_presets_tree (tree : Xml) : Except PyErr (List Preset) :=
exceptMap parsePreset (xpathChild tree "presets" "preset")

def parse_presets (tree : Xml) : Except PlayerUnexpectedResponseError (List Preset) :=
wrapUnexpected (parse_presets_tree tree)

def parse_state_tree (tree : Xml) : Except PyErr (Option String) :=
match xpathAll "state" tree with
| [e] => .ok e.text
| _ => .error (.assertionError "State element not found or multiple found")

def parse_state (tree : Xml) : Except PlayerUnexpectedResponseError (Option String) :=
wrapUnexpected (parse_state_tree tree)

/-- Model of `parse_sleep`: single `//sleep` anchor, then
`int(sleep_element.text) if sleep_element.text else 0`. -/
def parse_sleep_tree (tree : Xml) : Except PyErr Int :=
match xpathAll "sleep" tree with
| [e] => if pyTruthy e.text then pyIntOfOptStr e.text else .ok 0
| _ => .error (.assertionError "Sleep element not found or multiple found")

def parse_sleep (tree : Xml) : Except PlayerUnexpectedResponseError Int :=
wrapUnexpected (parse_sleep_tree tree)

/-- Model of `Input(id=x.attrib["id"], text=..., image=..., url=unquote(x.attrib["URL"]))`:
the `id` lookup is mandatory and raises `KeyError` when absent. -/
def parseInput (x : Xml) : Except PyErr Input :=
match attribD x "id" with
| .error e => .error e
| .ok id =>
  match attribD x "text" with
  | .error e => .error e
  | .ok text =>
    match attribD x "image" with
    | .error e => .error e
    | .ok image =>
      match attribD x "URL" with
      | .error e => .error e
      | .ok url => .ok ⟨id, text, image, pyUnquote url⟩

def parse_inputs_tree (tree : Xml) : Except PyErr (List Input) :=
exceptMap parseInput (xpathChild tree "radiotime" "item")

def parse_inputs (tree : Xml) : Except PlayerUnexpectedResponseError (List Input) :=
wrapUnexpected (parse_inputs_tree tree)

/-! Player client (`src/pyblu/player.py`). Each endpoint method is
modelled up to the point where it hands the request to the HTTP session:
the result is the single GET request that would be issued (URL path, query
parameters in insertion order, and the `aiohttp.ClientTimeout(total=...)`
argument, `none` when the source passes no timeout to `session.get`).
An `.error` result means the method raises before any request is issued.
Python floats for timeouts are modelled as `Rat`; the comparison
`poll_timeout >= used_timeout` (int vs float, exact in Python) becomes an
exact `Rat` comparison. -/

structure GetRequest where
url : String
params : List (String × String)
timeout : Option Rat
deriving DecidableEq, Repr

/-- Model of `Player.status` up to the `session.get` call. Defaults in the source:
`poll_timeout=30`, `timeout=None` (falls back to `default_timeout`). -/
def status_request (default_timeout : Rat) (etag : Option String) (poll_timeout : Int) (timeout : Option Rat) : Except PyErr GetRequest :=
let used_timeout := timeout.getD default_timeout
match etag with
| some e =>
  if (poll_timeout : Rat) ≥ used_timeout then
    .error (.valueError "poll_timeout has to be smaller than timeout")
  else
    .ok ⟨"/Status", [("etag", e), ("timeout", toString poll_timeout)], some used_timeout⟩
| none => .ok ⟨"/Status", [], some used_timeout⟩

/-- Model of `Player.sync_status` up to the `session.get` call. The source computes
`used_timeout` but its `session.get` call passes no timeout argument, so
the issued request carries none. -/
def sync_status_request (default_timeout : Rat) (etag : Option String) (poll_timeout : Int) (timeout : Option Rat) : Except PyErr GetRequest :=
let used_timeout := timeout.getD default_timeout
match etag with
| some e =>
  if (poll_timeout : Rat) ≥ used_timeout then
    .error (.valueError "poll_timeout has to be smaller than timeout")
  else
    .ok ⟨"/SyncStatus", [("etag", e), ("timeout", toString poll_timeout)], none⟩
| none => .ok ⟨"/SyncStatus", [], none⟩

/-- Model of `Player.volume` up to the `session.get` call. -/
def volume_request (default_timeout : Rat) (level : Option Int) (mute : Option Bool) (tell_slaves : Option Bool) (timeout : Option Rat) : GetRequest :=
let used_timeout := timeout.getD default_timeout
let params :=
  (match level with | some l => [("level", toString l)] | none => []) ++
  (match mute with | some m => [("mute", if m then "1" else "0")] | none => []) ++
  (match tell_slaves with | some t => [("tell_slaves", if t then "1" else "0")] | none => [])
⟨"/Volume", params, some used_timeout⟩

example : pyInt? " 42 " = some 42 := by decide
example : pyInt? "-7" = some (-7) := by decide
example : pyInt? "abc" = none := by decide
example : pyInt? "" = none := by decide
example : (pyFloat? "-20.1").isSome = true := by decide
example : pyFloat? "x1.0" = none := by decide
example : pyUnquote "Capture%3Abluez" = "Capture:bluez" := by decide

def volXmlEx : Xml := .elem "volume" [("db", "-20.0"), ("mute", "0")] (some "10") []

example : parse_volume volXmlEx = .ok ⟨10, ⟨"-20.0"⟩, false⟩ := by decide

def syncXmlEx : Xml :=
.elem "SyncStatus"
  [("icon", "/images/players/N125_nt.png"), ("db", "-17.1"), ("modelName", "NODE"),
   ("model", "N130"), ("brand", "Bluesound"), ("initialized", "true"),
   ("id", "1.1.1.1:11000"), ("mac", "00:11:22:33:44:55"), ("volume", "29"),
   ("name", "Node"), ("etag", "707"), ("schemaVersion", "34")]
  none
  [.elem "pairWithSub" [] none [], .elem "bluetoothOutput" [] none []]

example : parse_sync_status syncXmlEx = .ok
  { etag := "707", id := "1.1.1.1:11000", mac := "00:11:22:33:44:55", name := "Node",
    image := "/images/players/N125_nt.png", initialized := true, group := none,
    master := none, slaves := none, zone := none, zone_master := false,
    zone_slave := false, brand := "Bluesound", model := "N130", model_name := "NODE",
    mute_volume_db := none, mute_volume := none, volume_db := ⟨"-17.1"⟩, volume := 29 } := by decide

/-! General lemmas about the `Except` embedding. -/

theorem except_bind_ok {α β : Type} {m : Except PyErr α} {f : α → Except PyErr β} {b : β}
    (h : m >>= f = .ok b) : ∃ a, m = .ok a ∧ f a = .ok b := by
cases m with
| error e => exact Except.noConfusion h
| ok a => exact ⟨a, rfl, h⟩

theorem exceptMap_ok_length {α β : Type} {f : α → Except PyErr β} {l : List α} {r : List β}
    (h : exceptMap f l = .ok r) : r.length = l.length := by
induction l generalizing r with
| nil =>
  unfold exceptMap at h
  cases h
  rfl
| cons x xs ih =>
  unfold exceptMap at h
  obtain ⟨y, hy, h⟩ := except_bind_ok h
  obtain ⟨ys, hys, h⟩ := except_bind_ok h
  cases h
  simp [ih hys]

theorem exceptMap_ok_get {α β : Type} {f : α → Except PyErr β} {l : List α} {r : List β}
    (h : exceptMap f l = .ok r) :
    ∀ i (hi : i < l.length) (hr : i < r.length), f (l.get ⟨i, hi⟩) = .ok (r.get ⟨i, hr⟩) := by
induction l generalizing r with
| nil => intro i hi; exact absurd hi (by simp)
| cons x xs ih =>
  unfold exceptMap at h
  obtain ⟨y, hy, h⟩ := except_bind_ok h
  obtain ⟨ys, hys, h⟩ := except_bind_ok h
  cases h
  intro i hi hr
  cases i with
  | zero => exact hy
  | succ j => exact ih hys j (Nat.lt_of_succ_lt_succ hi) (Nat.lt_of_succ_lt_succ hr)

/-! Characterisation of a successful `parse_status`: the anchor is unique
and every field of the record is the stated extraction from it. -/

theorem parse_status_tree_ok {tree : Xml} {st : Status}
    (h : parse_status_tree tree = .ok st) :
    ∃ e, xpathAll "status" tree = [e] ∧
      attribD e "etag" = .ok st.etag ∧
      st.input_id = findtext e "inputId" ∧
      st.service = findtext e "service" ∧
      st.state = findtext e "state" ∧
      st.shuffle = boolField e "shuffle" ∧
      st.album = (findtext e "album").orElse (fun _ => findtext e "title3") ∧
      st.artist = (findtext e "artist").orElse (fun _ => findtext e "title2") ∧
      st.name = (findtext e "name").orElse (fun _ => findtext e "title1") ∧
      st.image = findtext e "image" ∧
      pyIntOfOptStr (findtext e "volume") = .ok st.volume ∧
      pyFloatOfOptStr (findtext e "db") = .ok st.volume_db ∧
      st.mute = boolField e "mute" ∧
      optIntField e "muteVolume" = .ok st.mute_volume ∧
      optFloatField e "muteDb" = .ok st.mute_volume_db ∧
      pyFloatOfOptStr (findtext e "secs") = .ok st.seconds ∧
      optFloatField e "totlen" = .ok st.total_seconds ∧
      st.can_seek = boolField e "canSeek" ∧
      intFieldDefault e "sleep" 0 = .ok st.sleep ∧
      st.group_name = findtext e "groupName" ∧
      optIntField e "groupVolume" = .ok st.group_volume ∧
      st.indexing = boolField e "indexing" ∧
      st.stream_url = findtext e "streamUrl" := by
unfold parse_status_tree at h
split at h
case _ e heq =>
  obtain ⟨etag, h1, h⟩ := except_bind_ok h
  obtain ⟨volume, h2, h⟩ := except_bind_ok h
  obtain ⟨volume_db, h3, h⟩ := except_bind_ok h
  obtain ⟨mute_volume, h4, h⟩ := except_bind_ok h
  obtain ⟨mute_volume_db, h5, h⟩ := except_bind_ok h
  obtain ⟨seconds, h6, h⟩ := except_bind_ok h
  obtain ⟨total_seconds, h7, h⟩ := except_bind_ok h
  obtain ⟨sleep, h8, h⟩ := except_bind_ok h
  obtain ⟨group_volume, h9, h⟩ := except_bind_ok h
  injection h with h
  subst h
  exact ⟨e, heq, h1, rfl, rfl, rfl, rfl, rfl, rfl, rfl, rfl, h2, h3, rfl, h4, h5,
         h6, h7, rfl, h8, rfl, h9, rfl, rfl⟩
case _ => exact Except.noConfusion h

/-! Characterisation of a successful `parse_sync_status`. -/

theorem parse_sync_status_tree_ok {tree : Xml} {ss : SyncStatus}
    (h : parse_sync_status_tree tree = .ok ss) :
    ∃ e, xpathAll "SyncStatus" tree = [e] ∧
      parseMaster tree = .ok ss.master ∧
      parseSlaves tree = .ok ss.slaves ∧
      attribD e "etag" = .ok ss.etag ∧
      attribD e "id" = .ok ss.id ∧
      attribD e "mac" = .ok ss.mac ∧
      attribD e "name" = .ok ss.name ∧
      attribD e "icon" = .ok ss.image ∧
      ss.initialized = (attribGet e "initialized" == some "true") ∧
      ss.group = attribGet e "group" ∧
      ss.zone = attribGet e "zone" ∧
      ss.zone_master = (attribGet e "zoneMaster" == some "true") ∧
      ss.zone_slave = (attribGet e "zoneMaster" == some "true") ∧
      attribD e "brand" = .ok ss.brand ∧
      attribD e "model" = .ok ss.model ∧
      attribD e "modelName" = .ok ss.model_name ∧
      optFloatAttr e "muteDb" = .ok ss.mute_volume_db ∧
      optIntAttr e "muteVolume" = .ok ss.mute_volume ∧
      floatAttr e "db" = .ok ss.volume_db ∧
      intAttr e "volume" = .ok ss.volume := by
unfold parse_sync_status_tree at h
obtain ⟨master, hm, h⟩ := except_bind_ok h
obtain ⟨slaves, hs, h⟩ := except_bind_ok h
split at h
case _ e heq =>
  obtain ⟨etag, h1, h⟩ := except_bind_ok h
  obtain ⟨id, h2, h⟩ := except_bind_ok h
  obtain ⟨mac, h3, h⟩ := except_bind_ok h
  obtain ⟨name, h4, h⟩ := except_bind_ok h
  obtain ⟨image, h5, h⟩ := except_bind_ok h
  obtain ⟨brand, h6, h⟩ := except_bind_ok h
  obtain ⟨model, h7, h⟩ := except_bind_ok h
  obtain ⟨model_name, h8, h⟩ := except_bind_ok h
  obtain ⟨mute_volume_db, h9, h⟩ := except_bind_ok h
  obtain ⟨mute_volume, h10, h⟩ := except_bind_ok h
  obtain ⟨volume_db, h11, h⟩ := except_bind_ok h
  obtain ⟨volume, h12, h⟩ := except_bind_ok h
  injection h with h
  subst h
  exact ⟨e, heq, hm, hs, h1, h2, h3, h4, h5, rfl, rfl, rfl, rfl, rfl,
         h6, h7, h8, h9, h10, h11, h12⟩
case _ => exact Except.noConfusion h

theorem wrapUnexpected_ok {α : Type} {r : Except PyErr α} {v : α}
    (h : wrapUnexpected r = .ok v) : r = .ok v := by
cases r with
| ok a => cases h; rfl
| error e => exact Except.noConfusion h

theorem optIntField_ok_isSome {e : Xml} {tag : String} {v : Option Int}
    (h : optIntField e tag = .ok v) : v.isSome = pyTruthy (findtext e tag) := by
unfold optIntField at h
split at h
case isTrue hp =>
  cases hint : pyIntOfOptStr (findtext e tag) with
  | error er => rw [hint] at h; exact Except.noConfusion h
  | ok y => rw [hint] at h; cases h; simp [hp]
case isFalse hp => cases h; simp [hp]

theorem optFloatField_ok_isSome {e : Xml} {tag : String} {v : Option PyFloat}
    (h : optFloatField e tag = .ok v) : v.isSome = pyTruthy (findtext e tag) := by
unfold optFloatField at h
split at h
case isTrue hp =>
  cases hint : pyFloatOfOptStr (findtext e tag) with
  | error er => rw [hint] at h; exact Except.noConfusion h
  | ok y => rw [hint] at h; cases h; simp [hp]
case isFalse hp => cases h; simp [hp]

theorem optIntAttr_ok_isSome {e : Xml} {k : String} {v : Option Int}
    (h : optIntAttr e k = .ok v) : v.isSome = (attribGet e k).isSome := by
unfold optIntAttr at h
split at h
case _ s hs =>
  cases hint : pyIntOfStr s with
  | error er => rw [hint] at h; exact Except.noConfusion h
  | ok y => rw [hint] at h; cases h; simp [hs]
case _ hs => cases h; simp [hs]

theorem optFloatAttr_ok_isSome {e : Xml} {k : String} {v : Option PyFloat}
    (h : optFloatAttr e k = .ok v) : v.isSome = (attribGet e k).isSome := by
unfold optFloatAttr at h
split at h
case _ s hs =>
  cases hint : pyFloatOfStr s with
  | error er => rw [hint] at h; exact Except.noConfusion h
  | ok y => rw [hint] at h; cases h; simp [hs]
case _ hs => cases h; simp [hs]

theorem parse_volume_tree_ok {tree : Xml} {v : Volume}
    (h : parse_volume_tree tree = .ok v) :
    ∃ e, xpathAll "volume" tree = [e] ∧
      pyIntOfOptStr e.text = .ok v.volume ∧
      floatAttr e "db" = .ok v.db ∧
      v.mute = (attribGet e "mute" == some "1") := by
unfold parse_volume_tree at h
split at h
case _ e heq =>
  obtain ⟨volume, h1, h⟩ := except_bind_ok h
  obtain ⟨db, h2, h⟩ := except_bind_ok h
  injection h with h
  subst h
  exact ⟨e, heq, h1, h2, rfl⟩
case _ => exact Except.noConfusion h

theorem parse_play_queue_tree_ok {tree : Xml} {q : PlayQueue}
    (h : parse_play_queue_tree tree = .ok q) :
    ∃ e, xpathAll "playlist" tree = [e] ∧
      attribD e "id" = .ok q.id ∧
      q.modified = (attribGet e "modified" == some "1") ∧
      intAttr e "length" = .ok q.length ∧
      q.shuffle = (attribGet e "shuffle" == some "1") := by
unfold parse_play_queue_tree at h
split at h
case _ e heq =>
  obtain ⟨id, h1, h⟩ := except_bind_ok h
  obtain ⟨length, h2, h⟩ := except_bind_ok h
  injection h with h
  subst h
  exact ⟨e, heq, h1, rfl, h2, rfl⟩
case _ => exact Except.noConfusion h

theorem parsePairedSlave_ok {x : Xml} {p : PairedPlayer}
    (h : parsePairedSlave x = .ok p) :
    p.ip = attribGet x "id" ∧
    ∃ ps, attribGet x "port" = some ps ∧ pyIntOfStr ps = .ok p.port := by
unfold parsePairedSlave at h
split at h
case _ => exact Except.noConfusion h
case _ ip hip =>
  split at h
  case _ => exact Except.noConfusion h
  case _ ps hps =>
    split at h
    case _ => exact Except.noConfusion h
    case _ port hport =>
      injection h with h
      subst h
      unfold attribD at hip hps
      constructor
      · cases hg : attribGet x "id" with
        | none => rw [hg] at hip; exact Except.noConfusion hip
        | some s => rw [hg] at hip; injection hip with hip; rw [hip]
      · refine ⟨ps, ?_, hport⟩
        cases hg : attribGet x "port" with
        | none => rw [hg] at hps; exact Except.noConfusion hps
        | some s => rw [hg] at hps; injection hps with hps; rw [hps]

/-! Concrete documents used as witnesses and counterexamples. -/

def txtElem (tag s : String) : Xml := .elem tag [] (some s) []

def emptyTag (tag : String) : Xml := .elem tag [] none []

def c10Tree : Xml :=
.elem "SyncStatus"
  [("etag", "e1"), ("id", "1.1.1.1:11000"), ("mac", "00:11:22:33:44:55"), ("name", "Node"),
   ("icon", "/img"), ("brand", "Bluesound"), ("model", "N130"), ("modelName", "NODE"),
   ("db", "-10.0"), ("volume", "10"), ("zoneSlave", "true")]
  none []

def c10SS : SyncStatus :=
⟨"e1", "1.1.1.1:11000", "00:11:22:33:44:55", "Node", "/img", false, none, none, none,
 none, false, false, "Bluesound", "N130", "NODE", none, none, ⟨"-10.0"⟩, 10⟩

/-- C10: for every document accepted by the lxml-based `parse_sync_status`,
the returned record has `zone_slave = zone_master`, and both are computed
by comparing the `zoneMaster` attribute of the anchor to `"true"`; the
`zoneSlave` attribute never influences the result. -/
theorem sync_status_zone_slave_from_zone_master (tree : Xml) (ss : SyncStatus)
    (h : parse_sync_status tree = .ok ss) :
    ss.zone_slave = ss.zone_master ∧
    ∀ e, xpathAll "SyncStatus" tree = [e] →
      ss.zone_slave = (attribGet e "zoneMaster" == some "true") := by
obtain ⟨e, heq, hm, hs, h1, h2, h3, h4, h5, hinit, hgroup, hzone, hzm, hzs, _⟩ :=
  parse_sync_status_tree_ok (wrapUnexpected_ok h)
refine ⟨hzs.trans hzm.symm, ?_⟩
intro e' he'
rw [he'] at heq
injection heq with heq _
subst heq
exact hzs

/-- C10 witness: a `SyncStatus` whose `zoneSlave` attribute is `"true"`
while `zoneMaster` is absent still parses with `zone_slave = false`,
equal to `zone_master`. -/
theorem sync_status_zone_slave_from_zone_master_witness :
    parse_sync_status c10Tree = .ok c10SS ∧ c10SS.zone_slave = c10SS.zone_master :=
⟨by decide, (sync_status_zone_slave_from_zone_master c10Tree c10SS (by decide)).1⟩

/-- C3: whenever an `etag` is supplied and `poll_timeout` is at least the
effective timeout (per-call value, else the client default), both `status`
and `sync_status` raise `ValueError` locally; the `.error` result means the
method aborts before handing any request to the HTTP session. -/
theorem poll_timeout_guard (d : Rat) (e : String) (p : Int) (t : Option Rat)
    (hge : (p : Rat) ≥ t.getD d) :
    status_request d (some e) p t =
      .error (.valueError "poll_timeout has to be smaller than timeout") ∧
    sync_status_request d (some e) p t =
      .error (.valueError "poll_timeout has to be smaller than timeout") := by
refine ⟨?_, ?_⟩ <;> simp [status_request, sync_status_request, hge]

/-- C3 witness: the source defaults (`default_timeout=5.0`,
`poll_timeout=30`) violate the precondition as soon as `etag` is set. -/
theorem poll_timeout_guard_witness :
    (((30 : Int) : Rat) ≥ (none : Option Rat).getD 5) ∧
    status_request 5 (some "abc") 30 none =
      .error (.valueError "poll_timeout has to be smaller than timeout") := by
have hge : ((30 : Int) : Rat) ≥ (none : Option Rat).getD 5 := by decide
exact ⟨hge, (poll_timeout_guard 5 "abc" 30 none hge).1⟩

/-- C8: `sync_status` computes the effective timeout but passes no timeout
to its `session.get` call, so its issued request carries neither the
per-call override nor the client default, while `status` and `volume`
attach `ClientTimeout(total=used_timeout)` as documented. -/
theorem sync_status_request_drops_timeout :
    sync_status_request 5 none 30 (some 2) = .ok ⟨"/SyncStatus", [], none⟩ ∧
    sync_status_request 5 (some "abc") 3 (some 7) =
      .ok ⟨"/SyncStatus", [("etag", "abc"), ("timeout", "3")], none⟩ ∧
    status_request 5 none 30 (some 2) = .ok ⟨"/Status", [], some 2⟩ ∧
    status_request 5 (some "abc") 3 (some 7) =
      .ok ⟨"/Status", [("etag", "abc"), ("timeout", "3")], some 7⟩ ∧
    volume_request 5 none none none (some 2) = ⟨"/Volume", [], some 2⟩ ∧
    volume_request 5 none none none none = ⟨"/Volume", [], some 5⟩ := by
decide

def c9Tree : Xml :=
.elem "radiotime" [("service", "Capture")] none
  [.elem "item"
     [("typeIndex", "bluetooth-1"), ("playerName", "Node"), ("text", "Bluetooth"),
      ("inputType", "bluetooth"), ("URL", "Capture%3Abluez%3Abluetooth"),
      ("image", "/images/BluetoothIcon.png"), ("type", "audio")]
     none []]

/-- C9: on the repository's own `test_inputs` document, whose bluetooth
item has no `id` attribute, `parse_inputs` raises the unexpected-response
error from `KeyError` instead of producing an `Input` with `id` absent. -/
theorem parse_inputs_missing_id_raises :
    parse_inputs c9Tree =
      .error ⟨"Unexpected response from player: 'id'", .keyError "id"⟩ := by
decide

def c1Tree : Xml :=
.elem "status" [("etag", "abc")] none
  [emptyTag "name", txtElem "title1" "T", txtElem "volume" "10",
   txtElem "db" "-20.0", txtElem "secs" "10"]

def c1Status : Status :=
⟨"abc", none, none, none, false, none, none, some "", none, 10, ⟨"-20.0"⟩,
 false, none, none, ⟨"10"⟩, none, false, 0, none, none, false, none⟩

/-- C1 counterexample: with `<name/>` present but empty and
`<title1>T</title1>` carrying text, the parsed name is the empty string
from the new tag, not the first non-empty value `"T"`. -/
theorem status_empty_name_shadows_legacy :
    parse_status c1Tree = .ok c1Status ∧
    c1Status.name = some "" ∧ c1Status.name ≠ some "T" := by
decide

/-- C1 (amended): `name`/`artist`/`album` come from the first PRESENT tag
of their pair (new tag preferred, its text kept even when empty); when the
new tag is absent the field equals the legacy tag's `findtext` result, so
it is `None` exactly when neither tag is present. -/
theorem status_name_artist_album_alias (tree : Xml) (st : Status) (e : Xml)
    (h : parse_status tree = .ok st) (he : xpathAll "status" tree = [e]) :
    (∀ s, findtext e "name" = some s → st.name = some s) ∧
    (findtext e "name" = none → st.name = findtext e "title1") ∧
    (∀ s, findtext e "artist" = some s → st.artist = some s) ∧
    (findtext e "artist" = none → st.artist = findtext e "title2") ∧
    (∀ s, findtext e "album" = some s → st.album = some s) ∧
    (findtext e "album" = none → st.album = findtext e "title3") := by
obtain ⟨e', heq, _, _, _, _, _, halbum, hartist, hname, _⟩ :=
  parse_status_tree_ok (wrapUnexpected_ok h)
rw [he] at heq
injection heq with heq2
subst heq2
refine ⟨?_, ?_, ?_, ?_, ?_, ?_⟩
· intro s hs; rw [hname, hs]; rfl
· intro hn; rw [hname, hn]; rfl
· intro s hs; rw [hartist, hs]; rfl
· intro hn; rw [hartist, hn]; rfl
· intro s hs; rw [halbum, hs]; rfl
· intro hn; rw [halbum, hn]; rfl

/-- C1 witness: on the counterexample document, the amended rule yields
the present-but-empty new tag's text. -/
theorem status_name_artist_album_alias_witness :
    parse_status c1Tree = .ok c1Status ∧ c1Status.name = some "" :=
⟨by decide,
 (status_name_artist_album_alias c1Tree c1Status c1Tree (by decide) (by rfl)).1 "" (by rfl)⟩

def c2Tree : Xml :=
.elem "status" [("etag", "abc")] none
  [txtElem "mute" "0", txtElem "muteVolume" "20", txtElem "muteDb" "-2.0",
   txtElem "volume" "10", txtElem "db" "-20.0", txtElem "secs" "10"]

def c2Status : Status :=
⟨"abc", none, none, none, false, none, none, none, none, 10, ⟨"-20.0"⟩,
 false, some 20, some ⟨"-2.0"⟩, ⟨"10"⟩, none, false, 0, none, none, false, none⟩

/-- C2 counterexample: a response reporting `mute=0` while carrying
`muteVolume`/`muteDb` parses with `mute = false` and both mute-derived
fields present, contradicting the claimed presence iff-muted invariant. -/
theorem mute_volume_present_while_unmuted :
    parse_status c2Tree = .ok c2Status ∧ c2Status.mute = false ∧
    c2Status.mute_volume = some 20 ∧ c2Status.mute_volume_db = some ⟨"-2.0"⟩ := by
decide

/-- C2 (amended): presence of `mute_volume`/`mute_volume_db` tracks the
presence of the `muteVolume`/`muteDb` source fields themselves (non-empty
element text for `Status`, attribute presence for `SyncStatus`), not the
`mute` flag; `SyncStatus` has no mute field at all. -/
theorem mute_volume_presence :
    (∀ tree st e, parse_status tree = .ok st → xpathAll "status" tree = [e] →
      st.mute_volume.isSome = pyTruthy (findtext e "muteVolume") ∧
      st.mute_volume_db.isSome = pyTruthy (findtext e "muteDb")) ∧
    (∀ tree ss e, parse_sync_status tree = .ok ss → xpathAll "SyncStatus" tree = [e] →
      ss.mute_volume.isSome = (attribGet e "muteVolume").isSome ∧
      ss.mute_volume_db.isSome = (attribGet e "muteDb").isSome) := by
constructor
· intro tree st e h he
  obtain ⟨e', heq, _, _, _, _, _, _, _, _, _, _, _, _, hmv, hmdb, _⟩ :=
    parse_status_tree_ok (wrapUnexpected_ok h)
  rw [he] at heq
  injection heq with heq2
  subst heq2
  exact ⟨optIntField_ok_isSome hmv, optFloatField_ok_isSome hmdb⟩
· intro tree ss e h he
  obtain ⟨e', heq, _, _, _, _, _, _, _, _, _, _, _, _, _, _, _, hmdb, hmv, _⟩ :=
    parse_sync_status_tree_ok (wrapUnexpected_ok h)
  rw [he] at heq
  injection heq with heq2
  subst heq2
  exact ⟨optIntAttr_ok_isSome hmv, optFloatAttr_ok_isSome hmdb⟩

/-- C2 witness: on the counterexample document the fields are present
because the source fields are, despite `mute = false`. -/
theorem mute_volume_presence_witness :
    parse_status c2Tree = .ok c2Status ∧
    c2Status.mute_volume.isSome = pyTruthy (findtext c2Tree "muteVolume") :=
⟨by decide, (mute_volume_presence.1 c2Tree c2Status c2Tree (by decide) (by rfl)).1⟩

def c6Tree : Xml :=
.elem "status" [("etag", "abc")] none
  [txtElem "volume" "10", txtElem "db" "-20.0", txtElem "secs" "10", emptyTag "sleep"]

def c6Status : Status :=
⟨"abc", none, none, none, false, none, none, none, none, 10, ⟨"-20.0"⟩,
 false, none, none, ⟨"10"⟩, none, false, 0, none, none, false, none⟩

def c6SleepTree : Xml := txtElem "sleep" "15"

/-- C6: the parsed sleep value is `0` when the source field is absent or
present-but-empty, and the integer content otherwise, both for the
`Status.sleep` field and for `parse_sleep`; the result type is a plain
integer, never null. -/
theorem sleep_parsing :
    (∀ tree st e, parse_status tree = .ok st → xpathAll "status" tree = [e] →
      ((findtext e "sleep" = none ∨ findtext e "sleep" = some "") → st.sleep = 0) ∧
      (∀ s n, findtext e "sleep" = some s → pyInt? s = some n → st.sleep = n)) ∧
    (∀ tree e, xpathAll "sleep" tree = [e] →
      ((e.text = none ∨ e.text = some "") → parse_sleep tree = .ok 0) ∧
      (∀ s n, e.text = some s → pyInt? s = some n → parse_sleep tree = .ok n)) := by
constructor
· intro tree st e h he
  obtain ⟨e', heq, _, _, _, _, _, _, _, _, _, _, _, _, _, _, _, _, _, hsleep, _⟩ :=
    parse_status_tree_ok (wrapUnexpected_ok h)
  rw [he] at heq
  injection heq with heq2
  subst heq2
  constructor
  · intro habs
    have hfalse : pyTruthy (findtext e "sleep") = false := by
      rcases habs with h1 | h1 <;> rw [h1] <;> rfl
    unfold intFieldDefault at hsleep
    rw [hfalse] at hsleep
    simp at hsleep
    exact hsleep.symm
  · intro s n hs hn
    have hne : s ≠ "" := by
      intro hemp
      subst hemp
      exact Option.noConfusion (rfl.symm.trans hn : (none : Option Int) = some n)
    have htrue : pyTruthy (findtext e "sleep") = true := by
      rw [hs]; simp [pyTruthy, hne]
    unfold intFieldDefault at hsleep
    rw [htrue] at hsleep
    simp only [if_true] at hsleep
    rw [hs] at hsleep
    simp only [pyIntOfOptStr, pyIntOfStr, hn, Except.ok.injEq] at hsleep
    exact hsleep.symm
· intro tree e he
  constructor
  · intro habs
    have hfalse : pyTruthy e.text = false := by
      rcases habs with h1 | h1 <;> rw [h1] <;> rfl
    unfold parse_sleep parse_sleep_tree
    rw [he]
    simp [hfalse, wrapUnexpected]
  · intro s n hs hn
    have hne : s ≠ "" := by
      intro hemp
      subst hemp
      exact Option.noConfusion (rfl.symm.trans hn : (none : Option Int) = some n)
    have htrue : pyTruthy e.text = true := by
      rw [hs]; simp [pyTruthy, hne]
    unfold parse_sleep parse_sleep_tree
    rw [he]
    simp only [htrue, if_true]
    rw [hs]
    simp only [pyIntOfOptStr, pyIntOfStr, hn]
    rfl

/-- C6 witness: a status with `<sleep/>` parses to `sleep = 0`, and a
standalone `<sleep>15</sleep>` response parses to `15`. -/
theorem sleep_parsing_witness :
    (parse_status c6Tree = .ok c6Status ∧ c6Status.sleep = 0) ∧
    parse_sleep c6SleepTree = .ok 15 :=
⟨⟨by decide,
  (sleep_parsing.1 c6Tree c6Status c6Tree (by decide) (by rfl)).1 (Or.inr (by rfl))⟩,
 (sleep_parsing.2 c6SleepTree c6SleepTree (by rfl)).2 "15" 15 (by rfl) (by decide)⟩

def c7Tree : Xml :=
.elem "status" [("etag", "abc")] none
  [txtElem "mute" "true", txtElem "volume" "10", txtElem "db" "-20.0", txtElem "secs" "10"]

def c7Status : Status :=
⟨"abc", none, none, none, false, none, none, none, none, 10, ⟨"-20.0"⟩,
 false, none, none, ⟨"10"⟩, none, false, 0, none, none, false, none⟩

/-- C7 counterexample: the element-sourced boolean `mute` compares its
source string to `"1"` only, so `<mute>true</mute>` parses to `false`,
refuting the claimed uniform rule where `"true"` also coerces to true. -/
theorem status_mute_true_string_is_false :
    parse_status c7Tree = .ok c7Status ∧ c7Status.mute = false := by
decide

/-- C7 (amended): each boolean field compares its source string to one
fixed literal — `"1"` for the element-sourced `Status` booleans and the
attribute-sourced `Volume`/`PlayQueue` booleans, `"true"` for the
`SyncStatus` attribute booleans — and any other value or absence gives
`false`; there is no shared `"1"`-or-`"true"` rule. -/
theorem boolean_field_coercion :
    (∀ tree st e, parse_status tree = .ok st → xpathAll "status" tree = [e] →
      st.shuffle = (findtext e "shuffle" == some "1") ∧
      st.mute = (findtext e "mute" == some "1") ∧
      st.can_seek = (findtext e "canSeek" == some "1") ∧
      st.indexing = (findtext e "indexing" == some "1")) ∧
    (∀ tree ss e, parse_sync_status tree = .ok ss → xpathAll "SyncStatus" tree = [e] →
      ss.initialized = (attribGet e "initialized" == some "true") ∧
      ss.zone_master = (attribGet e "zoneMaster" == some "true") ∧
      ss.zone_slave = (attribGet e "zoneMaster" == some "true")) ∧
    (∀ tree v e, parse_volume tree = .ok v → xpathAll "volume" tree = [e] →
      v.mute = (attribGet e "mute" == some "1")) ∧
    (∀ tree q e, parse_play_queue tree = .ok q → xpathAll "playlist" tree = [e] →
      q.modified = (attribGet e "modified" == some "1") ∧
      q.shuffle = (attribGet e "shuffle" == some "1")) := by
refine ⟨?_, ?_, ?_, ?_⟩
· intro tree st e h he
  obtain ⟨e', heq, _, _, _, _, hsh, _, _, _, _, _, _, hmu, _, _, _, _, hcs, _, _, _, hin, _⟩ :=
    parse_status_tree_ok (wrapUnexpected_ok h)
  rw [he] at heq
  injection heq with heq2
  subst heq2
  exact ⟨hsh, hmu, hcs, hin⟩
· intro tree ss e h he
  obtain ⟨e', heq, _, _, _, _, _, _, _, hinit, _, _, hzm, hzs, _⟩ :=
    parse_sync_status_tree_ok (wrapUnexpected_ok h)
  rw [he] at heq
  injection heq with heq2
  subst heq2
  exact ⟨hinit, hzm, hzs⟩
· intro tree v e h he
  obtain ⟨e', heq, _, _, hmu⟩ := parse_volume_tree_ok (wrapUnexpected_ok h)
  rw [he] at heq
  injection heq with heq2
  subst heq2
  exact hmu
· intro tree q e h he
  obtain ⟨e', heq, _, hmod, _, hsh⟩ := parse_play_queue_tree_ok (wrapUnexpected_ok h)
  rw [he] at heq
  injection heq with heq2
  subst heq2
  exact ⟨hmod, hsh⟩

/-- C7 witness: on the counterexample document, `mute` equals the
comparison of its source text with `"1"`, which is `false` for `"true"`. -/
theorem boolean_field_coercion_witness :
    parse_status c7Tree = .ok c7Status ∧
    c7Status.mute = (findtext c7Tree "mute" == some "1") :=
⟨by decide, ((boolean_field_coercion.1 c7Tree c7Status c7Tree (by decide) (by rfl)).2).1⟩

def slaveElem (ip p : String) : Xml := .elem "slave" [("id", ip), ("port", p)] none []

def c5Tree : Xml :=
.elem "SyncStatus"
  [("etag", "e2"), ("id", "1.1.1.1:11000"), ("mac", "00:11:22:33:44:55"), ("name", "Node"),
   ("icon", "/img"), ("brand", "Bluesound"), ("model", "N130"), ("modelName", "NODE"),
   ("db", "-10.0"), ("volume", "10")]
  none [slaveElem "1.1.1.1" "11000", slaveElem "2.2.2.2" "11000"]

def c5SS : SyncStatus :=
⟨"e2", "1.1.1.1:11000", "00:11:22:33:44:55", "Node", "/img", false, none, none,
 some [⟨some "1.1.1.1", 11000⟩, ⟨some "2.2.2.2", 11000⟩], none, false, false,
 "Bluesound", "N130", "NODE", none, none, ⟨"-10.0"⟩, 10⟩

example : parse_sync_status c5Tree = .ok c5SS := by decide

def c5EmptySS : SyncStatus :=
⟨"707", "1.1.1.1:11000", "00:11:22:33:44:55", "Node", "/images/players/N125_nt.png",
 true, none, none, none, none, false, false, "Bluesound", "N130", "NODE",
 none, none, ⟨"-17.1"⟩, 29⟩

/-- C5: on every accepted `SyncStatus` document, the follower list is
`None` when no `//SyncStatus/slave` element exists; otherwise it is a list
of the same length as the slave elements in document order, whose entries
take `ip` from the `id` attribute and `port` from the `int`-coerced `port`
attribute of the corresponding element. -/
theorem sync_status_followers (tree : Xml) (ss : SyncStatus)
    (h : parse_sync_status tree = .ok ss) :
    (xpathChild tree "SyncStatus" "slave" = [] → ss.slaves = none) ∧
    (xpathChild tree "SyncStatus" "slave" ≠ [] →
      ∃ l, ss.slaves = some l ∧
        l.length = (xpathChild tree "SyncStatus" "slave").length ∧
        ∀ i (hi : i < (xpathChild tree "SyncStatus" "slave").length) (hl : i < l.length),
          (l.get ⟨i, hl⟩).ip = attribGet ((xpathChild tree "SyncStatus" "slave").get ⟨i, hi⟩) "id" ∧
          ∃ ps, attribGet ((xpathChild tree "SyncStatus" "slave").get ⟨i, hi⟩) "port" = some ps ∧
            pyIntOfStr ps = .ok ((l.get ⟨i, hl⟩).port)) := by
obtain ⟨e, heq, hm, hs, _⟩ := parse_sync_status_tree_ok (wrapUnexpected_ok h)
unfold parseSlaves at hs
constructor
· intro hempty
  rw [hempty] at hs
  exact (Except.ok.inj hs).symm
· intro hne
  obtain ⟨x, xs, hxc⟩ : ∃ x xs, xpathChild tree "SyncStatus" "slave" = x :: xs := by
    cases hxc : xpathChild tree "SyncStatus" "slave" with
    | nil => exact absurd hxc hne
    | cons x xs => exact ⟨x, xs, rfl⟩
  rw [hxc] at hs ⊢
  have hs' : Except.map some (exceptMap parsePairedSlave (x :: xs)) = Except.ok ss.slaves := hs
  cases hmap : exceptMap parsePairedSlave (x :: xs) with
  | error er =>
    rw [hmap] at hs'
    exact Except.noConfusion hs'
  | ok r =>
    rw [hmap] at hs'
    refine ⟨r, (Except.ok.inj hs').symm, exceptMap_ok_length hmap, ?_⟩
    intro i hi hl
    obtain ⟨hip, ps, hps, hport⟩ := parsePairedSlave_ok (exceptMap_ok_get hmap i hi hl)
    exact ⟨hip, ps, hps, hport⟩

/-- C5 witness: the no-follower document parses with `slaves = None`. -/
theorem sync_status_followers_witness :
    parse_sync_status syncXmlEx = .ok c5EmptySS ∧ c5EmptySS.slaves = none :=
⟨by decide, (sync_status_followers syncXmlEx c5EmptySS (by decide)).1 (by rfl)⟩

def noAnchorTree : Xml := .elem "nothing" [] none []

def badVolumeTree : Xml :=
.elem "status" [("etag", "abc")] none [txtElem "volume" "x"]

/-- C4 counterexample: `parse_add_slave` performs no anchor-cardinality
check — a document with zero `addSlave` anchors yields the empty list
instead of raising the unexpected-response error the claim asserts for
every parse function. -/
theorem parse_add_slave_no_anchor_is_ok :
    parse_add_slave noAnchorTree = .ok [] := by
decide

/-! Coercion-failure lemmas: each field-extraction helper raises the
`int()`/`float()` `ValueError` on non-numeric source text, so such a
failure can never be absorbed into a default or zero. -/

theorem pyIntOfOptStr_bad {o : Option String} {s : String} (ho : o = some s)
    (hb : pyInt? s = none) :
    pyIntOfOptStr o =
      .error (.valueError ("invalid literal for int() with base 10: '" ++ s ++ "'")) := by
rw [ho]
simp only [pyIntOfOptStr, pyIntOfStr, hb]

theorem pyFloatOfOptStr_bad {o : Option String} {s : String} (ho : o = some s)
    (hb : pyFloat? s = none) :
    pyFloatOfOptStr o =
      .error (.valueError ("could not convert string to float: '" ++ s ++ "'")) := by
rw [ho]
simp only [pyFloatOfOptStr, pyFloatOfStr, hb]

theorem optIntField_bad {e : Xml} {tag s : String} (hf : findtext e tag = some s)
    (hne : s ≠ "") (hb : pyInt? s = none) :
    optIntField e tag =
      .error (.valueError ("invalid literal for int() with base 10: '" ++ s ++ "'")) := by
have ht : pyTruthy (findtext e tag) = true := by rw [hf]; simp [pyTruthy, hne]
unfold optIntField
simp only [ht, if_true]
rw [hf]
simp only [pyIntOfOptStr, pyIntOfStr, hb, Except.map]

theorem optFloatField_bad {e : Xml} {tag s : String} (hf : findtext e tag = some s)
    (hne : s ≠ "") (hb : pyFloat? s = none) :
    optFloatField e tag =
      .error (.valueError ("could not convert string to float: '" ++ s ++ "'")) := by
have ht : pyTruthy (findtext e tag) = true := by rw [hf]; simp [pyTruthy, hne]
unfold optFloatField
simp only [ht, if_true]
rw [hf]
simp only [pyFloatOfOptStr, pyFloatOfStr, hb, Except.map]

theorem intFieldDefault_bad {e : Xml} {tag s : String} {d : Int}
    (hf : findtext e tag = some s) (hne : s ≠ "") (hb : pyInt? s = none) :
    intFieldDefault e tag d =
      .error (.valueError ("invalid literal for int() with base 10: '" ++ s ++ "'")) := by
have ht : pyTruthy (findtext e tag) = true := by rw [hf]; simp [pyTruthy, hne]
unfold intFieldDefault
simp only [ht, if_true]
rw [hf]
simp only [pyIntOfOptStr, pyIntOfStr, hb]

theorem optIntAttr_bad {e : Xml} {k s : String} (ha : attribGet e k = some s)
    (hb : pyInt? s = none) :
    optIntAttr e k =
      .error (.valueError ("invalid literal for int() with base 10: '" ++ s ++ "'")) := by
unfold optIntAttr
rw [ha]
simp only [pyIntOfStr, hb, Except.map]

theorem optFloatAttr_bad {e : Xml} {k s : String} (ha : attribGet e k = some s)
    (hb : pyFloat? s = none) :
    optFloatAttr e k =
      .error (.valueError ("could not convert string to float: '" ++ s ++ "'")) := by
unfold optFloatAttr
rw [ha]
simp only [pyFloatOfStr, hb, Except.map]

theorem intAttr_bad {e : Xml} {k s : String} (ha : attribGet e k = some s)
    (hb : pyInt? s = none) :
    intAttr e k =
      .error (.valueError ("invalid literal for int() with base 10: '" ++ s ++ "'")) := by
have h1 : attribD e k = .ok s := by unfold attribD; rw [ha]
unfold intAttr
simp only [h1, pyIntOfStr, hb]

theorem floatAttr_bad {e : Xml} {k s : String} (ha : attribGet e k = some s)
    (hb : pyFloat? s = none) :
    floatAttr e k =
      .error (.valueError ("could not convert string to float: '" ++ s ++ "'")) := by
have h1 : attribD e k = .ok s := by unfold attribD; rw [ha]
unfold floatAttr
simp only [h1, pyFloatOfStr, hb]

theorem parsePairedSlave_bad {x : Xml} {ip ps : String}
    (hid : attribGet x "id" = some ip) (hp : attribGet x "port" = some ps)
    (hb : pyInt? ps = none) :
    parsePairedSlave x =
      .error (.valueError ("invalid literal for int() with base 10: '" ++ ps ++ "'")) := by
have h1 : attribD x "id" = .ok ip := by unfold attribD; rw [hid]
have h2 : attribD x "port" = .ok ps := by unfold attribD; rw [hp]
unfold parsePairedSlave
simp only [h1, h2, pyIntOfStr, hb]

theorem parseMaster_bad {tree m : Xml} {rest : List Xml} {ps : String}
    (hx : xpathChild tree "SyncStatus" "master" = m :: rest)
    (hp : attribGet m "port" = some ps) (hb : pyInt? ps = none) :
    parseMaster tree =
      .error (.valueError ("invalid literal for int() with base 10: '" ++ ps ++ "'")) := by
have h2 : attribD m "port" = .ok ps := by unfold attribD; rw [hp]
unfold parseMaster
rw [hx]
simp only [h2, pyIntOfStr, hb]

theorem parseSlaves_err {tree x : Xml} {rest : List Xml} {E : PyErr}
    (hxc : xpathChild tree "SyncStatus" "slave" = x :: rest)
    (hfail : parsePairedSlave x = .error E) : parseSlaves tree = .error E := by
have hmap : exceptMap parsePairedSlave (x :: rest) = .error E := by
  unfold exceptMap; rw [hfail]; rfl
have hred : Except.map some (exceptMap parsePairedSlave (x :: rest)) =
    (.error E : Except PyErr (Option (List PairedPlayer))) :=
  (congrArg (Except.map some) hmap).trans rfl
unfold parseSlaves
rw [hxc]
exact hred

theorem parsePreset_bad {x : Xml} {nm ids : String}
    (hn : attribGet x "name" = some nm) (hi : attribGet x "id" = some ids)
    (hb : pyInt? ids = none) :
    parsePreset x =
      .error (.valueError ("invalid literal for int() with base 10: '" ++ ids ++ "'")) := by
have h1 : attribD x "name" = .ok nm := by unfold attribD; rw [hn]
have h2 : attribD x "id" = .ok ids := by unfold attribD; rw [hi]
unfold parsePreset
simp only [h1, h2, pyIntOfStr, hb]

/-- C4 (amended): the single-record parse functions (`parse_status`,
`parse_sync_status`, `parse_volume`, `parse_play_queue`, `parse_state`,
`parse_sleep`) raise the unexpected-response error, carrying the
underlying failure detail, when their anchor element occurs zero times or
more than once; the list parse functions (`parse_add_slave`,
`parse_presets`, `parse_inputs`) impose no anchor check and return the
empty list when the anchor is absent; and a numeric source field holding
non-numeric text always makes its parse function raise the
unexpected-response error instead of yielding a record — covering every
numeric field: the `Status` volume, db, secs, totlen, muteVolume, muteDb,
groupVolume and defaulted sleep fields, the `SyncStatus` volume, db,
muteVolume, muteDb and leader/follower port fields, the `Volume` element
text and db attribute, the playlist length, preset ids, and the
standalone sleep text — with the exact `int()`/`float()` `ValueError`
detail exhibited at each parser's first fallible coercion. -/
theorem anchor_and_numeric_errors :
    (∀ tree, (xpathAll "status" tree).length ≠ 1 →
      parse_status tree = .error
        ⟨"Unexpected response from player: " ++ "Status element not found or multiple found",
         .assertionError "Status element not found or multiple found"⟩) ∧
    (∀ tree, (xpathAll "volume" tree).length ≠ 1 →
      parse_volume tree = .error
        ⟨"Unexpected response from player: " ++ "Volume element not found or multiple found",
         .assertionError "Volume element not found or multiple found"⟩) ∧
    (∀ tree, (xpathAll "playlist" tree).length ≠ 1 →
      parse_play_queue tree = .error
        ⟨"Unexpected response from player: " ++ "Playlist element not found or multiple found",
         .assertionError "Playlist element not found or multiple found"⟩) ∧
    (∀ tree, (xpathAll "state" tree).length ≠ 1 →
      parse_state tree = .error
        ⟨"Unexpected response from player: " ++ "State element not found or multiple found",
         .assertionError "State element not found or multiple found"⟩) ∧
    (∀ tree, (xpathAll "sleep" tree).length ≠ 1 →
      parse_sleep tree = .error
        ⟨"Unexpected response from player: " ++ "Sleep element not found or multiple found",
         .assertionError "Sleep element not found or multiple found"⟩) ∧
    (∀ tree, (xpathAll "SyncStatus" tree).length ≠ 1 →
      ∃ err, parse_sync_status tree = .error err) ∧
    (∀ tree e s, xpathAll "status" tree = [e] →
      (∃ t, attribGet e "etag" = some t) →
      findtext e "volume" = some s → pyInt? s = none →
      parse_status tree = .error
        ⟨"Unexpected response from player: " ++ ("invalid literal for int() with base 10: '" ++ s ++ "'"),
         .valueError ("invalid literal for int() with base 10: '" ++ s ++ "'")⟩) ∧
    (∀ tree e s, xpathAll "sleep" tree = [e] →
      e.text = some s → s ≠ "" → pyInt? s = none →
      parse_sleep tree = .error
        ⟨"Unexpected response from player: " ++ ("invalid literal for int() with base 10: '" ++ s ++ "'"),
         .valueError ("invalid literal for int() with base 10: '" ++ s ++ "'")⟩) ∧
    (∀ tree, xpathChild tree "addSlave" "slave" = [] → parse_add_slave tree = .ok []) ∧
    (∀ tree, xpathChild tree "presets" "preset" = [] → parse_presets tree = .ok []) ∧
    (∀ tree, xpathChild tree "radiotime" "item" = [] → parse_inputs tree = .ok []) ∧
    (∀ tree e s, xpathAll "volume" tree = [e] →
      e.text = some s → pyInt? s = none →
      parse_volume tree = .error
        ⟨"Unexpected response from player: " ++ ("invalid literal for int() with base 10: '" ++ s ++ "'"),
         .valueError ("invalid literal for int() with base 10: '" ++ s ++ "'")⟩) ∧
    (∀ tree e s t, xpathAll "playlist" tree = [e] →
      attribGet e "id" = some t →
      attribGet e "length" = some s → pyInt? s = none →
      parse_play_queue tree = .error
        ⟨"Unexpected response from player: " ++ ("invalid literal for int() with base 10: '" ++ s ++ "'"),
         .valueError ("invalid literal for int() with base 10: '" ++ s ++ "'")⟩) ∧
    (∀ tree x rest ip ps, xpathChild tree "addSlave" "slave" = x :: rest →
      attribGet x "id" = some ip →
      attribGet x "port" = some ps → pyInt? ps = none →
      parse_add_slave tree = .error
        ⟨"Unexpected response from player: " ++ ("invalid literal for int() with base 10: '" ++ ps ++ "'"),
         .valueError ("invalid literal for int() with base 10: '" ++ ps ++ "'")⟩) ∧
    (∀ tree x rest nm ids, xpathChild tree "presets" "preset" = x :: rest →
      attribGet x "name" = some nm →
      attribGet x "id" = some ids → pyInt? ids = none →
      parse_presets tree = .error
        ⟨"Unexpected response from player: " ++ ("invalid literal for int() with base 10: '" ++ ids ++ "'"),
         .valueError ("invalid literal for int() with base 10: '" ++ ids ++ "'")⟩) ∧
    (∀ tree e s, xpathAll "status" tree = [e] →
      findtext e "volume" = some s → pyInt? s = none →
      ∃ err, parse_status tree = .error err) ∧
    (∀ tree e s, xpathAll "status" tree = [e] →
      findtext e "db" = some s → pyFloat? s = none →
      ∃ err, parse_status tree = .error err) ∧
    (∀ tree e s, xpathAll "status" tree = [e] →
      findtext e "secs" = some s → pyFloat? s = none →
      ∃ err, parse_status tree = .error err) ∧
    (∀ tree e s, xpathAll "status" tree = [e] →
      findtext e "totlen" = some s → s ≠ "" → pyFloat? s = none →
      ∃ err, parse_status tree = .error err) ∧
    (∀ tree e s, xpathAll "status" tree = [e] →
      findtext e "muteVolume" = some s → s ≠ "" → pyInt? s = none →
      ∃ err, parse_status tree = .error err) ∧
    (∀ tree e s, xpathAll "status" tree = [e] →
      findtext e "muteDb" = some s → s ≠ "" → pyFloat? s = none →
      ∃ err, parse_status tree = .error err) ∧
    (∀ tree e s, xpathAll "status" tree = [e] →
      findtext e "sleep" = some s → s ≠ "" → pyInt? s = none →
      ∃ err, parse_status tree = .error err) ∧
    (∀ tree e s, xpathAll "status" tree = [e] →
      findtext e "groupVolume" = some s → s ≠ "" → pyInt? s = none →
      ∃ err, parse_status tree = .error err) ∧
    (∀ tree e s, xpathAll "SyncStatus" tree = [e] →
      attribGet e "volume" = some s → pyInt? s = none →
      ∃ err, parse_sync_status tree = .error err) ∧
    (∀ tree e s, xpathAll "SyncStatus" tree = [e] →
      attribGet e "db" = some s → pyFloat? s = none →
      ∃ err, parse_sync_status tree = .error err) ∧
    (∀ tree e s, xpathAll "SyncStatus" tree = [e] →
      attribGet e "muteVolume" = some s → pyInt? s = none →
      ∃ err, parse_sync_status tree = .error err) ∧
    (∀ tree e s, xpathAll "SyncStatus" tree = [e] →
      attribGet e "muteDb" = some s → pyFloat? s = none →
      ∃ err, parse_sync_status tree = .error err) ∧
    (∀ tree m rest ps, xpathChild tree "SyncStatus" "master" = m :: rest →
      attribGet m "port" = some ps → pyInt? ps = none →
      ∃ err, parse_sync_status tree = .error err) ∧
    (∀ tree x rest ip ps, xpathChild tree "SyncStatus" "slave" = x :: rest →
      attribGet x "id" = some ip →
      attribGet x "port" = some ps → pyInt? ps = none →
      ∃ err, parse_sync_status tree = .error err) ∧
    (∀ tree e s, xpathAll "volume" tree = [e] →
      attribGet e "db" = some s → pyFloat? s = none →
      ∃ err, parse_volume tree = .error err) := by
refine ⟨?_, ?_, ?_, ?_, ?_, ?_, ?_, ?_, ?_, ?_, ?_, ?_, ?_, ?_, ?_, ?_, ?_, ?_, ?_, ?_,
        ?_, ?_, ?_, ?_, ?_, ?_, ?_, ?_, ?_, ?_⟩
· intro tree hne
  unfold parse_status parse_status_tree
  cases hx : xpathAll "status" tree with
  | nil => rfl
  | cons e rest =>
    cases rest with
    | nil => exact absurd (by simp [hx]) hne
    | cons e2 rest2 => rfl
· intro tree hne
  unfold parse_volume parse_volume_tree
  cases hx : xpathAll "volume" tree with
  | nil => rfl
  | cons e rest =>
    cases rest with
    | nil => exact absurd (by simp [hx]) hne
    | cons e2 rest2 => rfl
· intro tree hne
  unfold parse_play_queue parse_play_queue_tree
  cases hx : xpathAll "playlist" tree with
  | nil => rfl
  | cons e rest =>
    cases rest with
    | nil => exact absurd (by simp [hx]) hne
    | cons e2 rest2 => rfl
· intro tree hne
  unfold parse_state parse_state_tree
  cases hx : xpathAll "state" tree with
  | nil => rfl
  | cons e rest =>
    cases rest with
    | nil => exact absurd (by simp [hx]) hne
    | cons e2 rest2 => rfl
· intro tree hne
  unfold parse_sleep parse_sleep_tree
  cases hx : xpathAll "sleep" tree with
  | nil => rfl
  | cons e rest =>
    cases rest with
    | nil => exact absurd (by simp [hx]) hne
    | cons e2 rest2 => rfl
· intro tree hne
  unfold parse_sync_status parse_sync_status_tree
  cases hm : parseMaster tree with
  | error er =>
    exact ⟨⟨"Unexpected response from player: " ++ er.str, er⟩, by rfl⟩
  | ok m =>
    cases hs : parseSlaves tree with
    | error er =>
      exact ⟨⟨"Unexpected response from player: " ++ er.str, er⟩, by rfl⟩
    | ok s =>
      cases hx : xpathAll "SyncStatus" tree with
      | nil =>
        exact ⟨⟨"Unexpected response from player: " ++
                  PyErr.str (.assertionError "SyncStatus element not found or multiple found"),
                .assertionError "SyncStatus element not found or multiple found"⟩,
               by rfl⟩
      | cons e rest =>
        cases rest with
        | nil => exact absurd (by simp [hx]) hne
        | cons e2 rest2 =>
          exact ⟨⟨"Unexpected response from player: " ++
                    PyErr.str (.assertionError "SyncStatus element not found or multiple found"),
                  .assertionError "SyncStatus element not found or multiple found"⟩,
                 by rfl⟩
· intro tree e s he het hvol hbad
  obtain ⟨t, ht⟩ := het
  unfold parse_status parse_status_tree
  rw [he]
  have h1 : attribD e "etag" = .ok t := by unfold attribD; rw [ht]
  have h2 := pyIntOfOptStr_bad hvol hbad
  simp only [h1, h2]
  rfl
· intro tree e s he ht hne hb
  have htrue : pyTruthy e.text = true := by rw [ht]; simp [pyTruthy, hne]
  have h2 := pyIntOfOptStr_bad ht hb
  unfold parse_sleep parse_sleep_tree
  rw [he]
  simp only [htrue, if_true, h2]
  rfl
· intro tree h
  unfold parse_add_slave parse_add_slave_tree
  rw [h]
  rfl
· intro tree h
  unfold parse_presets parse_presets_tree
  rw [h]
  rfl
· intro tree h
  unfold parse_inputs parse_inputs_tree
  rw [h]
  rfl
· intro tree e s he ht hb
  have h2 := pyIntOfOptStr_bad ht hb
  unfold parse_volume parse_volume_tree
  rw [he]
  simp only [h2]
  rfl
· intro tree e s t he hid hlen hb
  have h1 : attribD e "id" = .ok t := by unfold attribD; rw [hid]
  have h2 := intAttr_bad hlen hb
  unfold parse_play_queue parse_play_queue_tree
  rw [he]
  simp only [h1, h2]
  rfl
· intro tree x rest ip ps hxc hid hp hb
  have hfail := parsePairedSlave_bad hid hp hb
  have hmap : exceptMap parsePairedSlave (x :: rest) =
      .error (.valueError ("invalid literal for int() with base 10: '" ++ ps ++ "'")) := by
    unfold exceptMap; rw [hfail]; rfl
  unfold parse_add_slave parse_add_slave_tree
  rw [hxc]
  exact (congrArg wrapUnexpected hmap).trans rfl
· intro tree x rest nm ids hxc hn hi hb
  have hfail := parsePreset_bad hn hi hb
  have hmap : exceptMap parsePreset (x :: rest) =
      .error (.valueError ("invalid literal for int() with base 10: '" ++ ids ++ "'")) := by
    unfold exceptMap; rw [hfail]; rfl
  unfold parse_presets parse_presets_tree
  rw [hxc]
  exact (congrArg wrapUnexpected hmap).trans rfl
· intro tree e s he hf hb
  cases hres : parse_status tree with
  | error err => exact ⟨err, rfl⟩
  | ok st =>
    exfalso
    obtain ⟨e2, heq, _, _, _, _, _, _, _, _, _, hC, _⟩ :=
      parse_status_tree_ok (wrapUnexpected_ok hres)
    rw [he] at heq
    injection heq with heq2
    subst heq2
    exact Except.noConfusion ((pyIntOfOptStr_bad hf hb).symm.trans hC)
· intro tree e s he hf hb
  cases hres : parse_status tree with
  | error err => exact ⟨err, rfl⟩
  | ok st =>
    exfalso
    obtain ⟨e2, heq, _, _, _, _, _, _, _, _, _, _, hC, _⟩ :=
      parse_status_tree_ok (wrapUnexpected_ok hres)
    rw [he] at heq
    injection heq with heq2
    subst heq2
    exact Except.noConfusion ((pyFloatOfOptStr_bad hf hb).symm.trans hC)
· intro tree e s he hf hb
  cases hres : parse_status tree with
  | error err => exact ⟨err, rfl⟩
  | ok st =>
    exfalso
    obtain ⟨e2, heq, _, _, _, _, _, _, _, _, _, _, _, _, _, _, hC, _⟩ :=
      parse_status_tree_ok (wrapUnexpected_ok hres)
    rw [he] at heq
    injection heq with heq2
    subst heq2
    exact Except.noConfusion ((pyFloatOfOptStr_bad hf hb).symm.trans hC)
· intro tree e s he hf hne hb
  cases hres : parse_status tree with
  | error err => exact ⟨err, rfl⟩
  | ok st =>
    exfalso
    obtain ⟨e2, heq, _, _, _, _, _, _, _, _, _, _, _, _, _, _, _, hC, _⟩ :=
      parse_status_tree_ok (wrapUnexpected_ok hres)
    rw [he] at heq
    injection heq with heq2
    subst heq2
    exact Except.noConfusion ((optFloatField_bad hf hne hb).symm.trans hC)
· intro tree e s he hf hne hb
  cases hres : parse_status tree with
  | error err => exact ⟨err, rfl⟩
  | ok st =>
    exfalso
    obtain ⟨e2, heq, _, _, _, _, _, _, _, _, _, _, _, _, hC, _⟩ :=
      parse_status_tree_ok (wrapUnexpected_ok hres)
    rw [he] at heq
    injection heq with heq2
    subst heq2
    exact Except.noConfusion ((optIntField_bad hf hne hb).symm.trans hC)
· intro tree e s he hf hne hb
  cases hres : parse_status tree with
  | error err => exact ⟨err, rfl⟩
  | ok st =>
    exfalso
    obtain ⟨e2, heq, _, _, _, _, _, _, _, _, _, _, _, _, _, hC, _⟩ :=
      parse_status_tree_ok (wrapUnexpected_ok hres)
    rw [he] at heq
    injection heq with heq2
    subst heq2
    exact Except.noConfusion ((optFloatField_bad hf hne hb).symm.trans hC)
· intro tree e s he hf hne hb
  cases hres : parse_status tree with
  | error err => exact ⟨err, rfl⟩
  | ok st =>
    exfalso
    obtain ⟨e2, heq, _, _, _, _, _, _, _, _, _, _, _, _, _, _, _, _, _, hC, _⟩ :=
      parse_status_tree_ok (wrapUnexpected_ok hres)
    rw [he] at heq
    injection heq with heq2
    subst heq2
    exact Except.noConfusion ((intFieldDefault_bad hf hne hb).symm.trans hC)
· intro tree e s he hf hne hb
  cases hres : parse_status tree with
  | error err => exact ⟨err, rfl⟩
  | ok st =>
    exfalso
    obtain ⟨e2, heq, _, _, _, _, _, _, _, _, _, _, _, _, _, _, _, _, _, _, _, hC, _⟩ :=
      parse_status_tree_ok (wrapUnexpected_ok hres)
    rw [he] at heq
    injection heq with heq2
    subst heq2
    exact Except.noConfusion ((optIntField_bad hf hne hb).symm.trans hC)
· intro tree e s he ha hb
  cases hres : parse_sync_status tree with
  | error err => exact ⟨err, rfl⟩
  | ok ss =>
    exfalso
    obtain ⟨e2, heq, _, _, _, _, _, _, _, _, _, _, _, _, _, _, _, _, _, _, hC⟩ :=
      parse_sync_status_tree_ok (wrapUnexpected_ok hres)
    rw [he] at heq
    injection heq with heq2
    subst heq2
    exact Except.noConfusion ((intAttr_bad ha hb).symm.trans hC)
· intro tree e s he ha hb
  cases hres : parse_sync_status tree with
  | error err => exact ⟨err, rfl⟩
  | ok ss =>
    exfalso
    obtain ⟨e2, heq, _, _, _, _, _, _, _, _, _, _, _, _, _, _, _, _, _, hC, _⟩ :=
      parse_sync_status_tree_ok (wrapUnexpected_ok hres)
    rw [he] at heq
    injection heq with heq2
    subst heq2
    exact Except.noConfusion ((floatAttr_bad ha hb).symm.trans hC)
· intro tree e s he ha hb
  cases hres : parse_sync_status tree with
  | error err => exact ⟨err, rfl⟩
  | ok ss =>
    exfalso
    obtain ⟨e2, heq, _, _, _, _, _, _, _, _, _, _, _, _, _, _, _, _, hC, _⟩ :=
      parse_sync_status_tree_ok (wrapUnexpected_ok hres)
    rw [he] at heq
    injection heq with heq2
    subst heq2
    exact Except.noConfusion ((optIntAttr_bad ha hb).symm.trans hC)
· intro tree e s he ha hb
  cases hres : parse_sync_status tree with
  | error err => exact ⟨err, rfl⟩
  | ok ss =>
    exfalso
    obtain ⟨e2, heq, _, _, _, _, _, _, _, _, _, _, _, _, _, _, _, hC, _⟩ :=
      parse_sync_status_tree_ok (wrapUnexpected_ok hres)
    rw [he] at heq
    injection heq with heq2
    subst heq2
    exact Except.noConfusion ((optFloatAttr_bad ha hb).symm.trans hC)
· intro tree m rest ps hx hp hb
  cases hres : parse_sync_status tree with
  | error err => exact ⟨err, rfl⟩
  | ok ss =>
    exfalso
    obtain ⟨_, _, hC, _⟩ := parse_sync_status_tree_ok (wrapUnexpected_ok hres)
    exact Except.noConfusion ((parseMaster_bad hx hp hb).symm.trans hC)
· intro tree x rest ip ps hxc hid hp hb
  cases hres : parse_sync_status tree with
  | error err => exact ⟨err, rfl⟩
  | ok ss =>
    exfalso
    obtain ⟨_, _, _, hC, _⟩ := parse_sync_status_tree_ok (wrapUnexpected_ok hres)
    exact Except.noConfusion
      ((parseSlaves_err hxc (parsePairedSlave_bad hid hp hb)).symm.trans hC)
· intro tree e s he ha hb
  cases hres : parse_volume tree with
  | error err => exact ⟨err, rfl⟩
  | ok v =>
    exfalso
    obtain ⟨e2, heq, _, hC, _⟩ := parse_volume_tree_ok (wrapUnexpected_ok hres)
    rw [he] at heq
    injection heq with heq2
    subst heq2
    exact Except.noConfusion ((floatAttr_bad ha hb).symm.trans hC)

def badSleepElem : Xml := txtElem "sleep" "ab"

/-- C4 witness: a document with no anchor makes `parse_status` raise the
assertion-backed unexpected-response error, a non-numeric `<volume>` makes
it raise the `ValueError`-backed one, a non-numeric `<sleep>ab</sleep>`
makes `parse_sleep` raise instead of defaulting to 0, and
`parse_add_slave` returns the empty list on the anchor-free document. -/
theorem anchor_and_numeric_errors_witness :
    ((xpathAll "status" noAnchorTree).length ≠ 1 ∧
     parse_status noAnchorTree = .error
       ⟨"Unexpected response from player: " ++ "Status element not found or multiple found",
        .assertionError "Status element not found or multiple found"⟩) ∧
    (pyInt? "x" = none ∧
     parse_status badVolumeTree = .error
       ⟨"Unexpected response from player: " ++ ("invalid literal for int() with base 10: '" ++ "x" ++ "'"),
        .valueError ("invalid literal for int() with base 10: '" ++ "x" ++ "'")⟩) ∧
    (pyInt? "ab" = none ∧
     parse_sleep badSleepElem = .error
       ⟨"Unexpected response from player: " ++ ("invalid literal for int() with base 10: '" ++ "ab" ++ "'"),
        .valueError ("invalid literal for int() with base 10: '" ++ "ab" ++ "'")⟩) ∧
    parse_add_slave noAnchorTree = .ok [] :=
⟨⟨by decide, anchor_and_numeric_errors.1 noAnchorTree (by decide)⟩,
 ⟨by decide,
  (anchor_and_numeric_errors.2.2.2.2.2.2.1) badVolumeTree badVolumeTree "x"
    (by rfl) ⟨"abc", by rfl⟩ (by rfl) (by decide)⟩,
 ⟨by decide,
  (anchor_and_numeric_errors.2.2.2.2.2.2.2.1) badSleepElem badSleepElem "ab"
    (by rfl) (by rfl) (by decide) (by decide)⟩,
 (anchor_and_numeric_errors.2.2.2.2.2.2.2.2.1) noAnchorTree (by rfl)⟩
